import Mathlib

/-!
Verification of the `kendra-bedrock-cdk-python-google-drive` pattern.

The single source file `app.py` is an AWS CDK program: running it synthesizes
one CloudFormation stack containing a Kendra index, a Google Drive data
source, two IAM roles for two Lambda functions, and a deployment-time
trigger.  We embed the synthesis as a pure function from the stack's input
parameters (and a resolution of the deploy-time tokens such as
`kendra_index.attr_id`) to a record describing every resource the program
creates, transcribed line by line from `app.py`.

The Lambda handler code referenced by the stack
(`src/dataSourceSync`, `src/invokeBedrockLambda`) is not part of the
repository snapshot, so the behaviour of the sync orchestrator and the
query service is modelled from the specification text where a claim needs
it; those definitions carry a `Modelled from the spec:` doc comment.
-/

namespace KendraBedrock

/-- Inputs of the CDK app: the three `CfnParameter` values of the stack,
the construct id passed in `BedrockKendraGoogleDriveStack(app, ...)`, and
the stack's region (used in the Bedrock model ARN `self.region`). -/
structure StackParams where
  model_id : String
  kendra_edition : String
  google_drive_secret_arn : String
  construct_id : String
  region : String
deriving Repr, DecidableEq

/-- Deploy-time resolution of the CloudFormation attribute tokens the CDK
program references (`attr_id` / `attr_arn` of the index and data source,
and the generated role ARNs).  The synthesized template carries these as
opaque references; a resolution assigns them the concrete strings the
deployment produces. -/
structure Resolution where
  index_id : String
  index_arn : String
  ds_id : String
  ds_arn : String
  index_role_arn : String
  ds_role_arn : String
deriving Repr, DecidableEq

/-- One `iam.PolicyStatement`: a list of actions over a list of resources. -/
structure PolicyStatement where
  actions : List String
  resources : List String
deriving Repr, DecidableEq

/-- One `iam.PolicyDocument`. -/
structure PolicyDocument where
  statements : List PolicyStatement
deriving Repr, DecidableEq

/-- An `iam.Role` as constructed in `app.py`: service principal, optional
explicit role name, managed policy names, and named inline policies. -/
structure Role where
  assumed_by : String
  role_name : Option String
  managed_policies : List String
  inline_policies : List (String × PolicyDocument)
deriving Repr, DecidableEq

/-- A `kendra.CfnIndex`. -/
structure CfnIndex where
  name : String
  role_arn : String
  edition : String
deriving Repr, DecidableEq

/-- A `kendra.CfnDataSource`, together with the explicit construct-level
dependencies added via `node.add_dependency`. -/
structure CfnDataSource where
  index_id : String
  name : String
  ds_type : String
  secret_arn : String
  role_arn : String
  dependencies : List String
deriving Repr, DecidableEq

/-- A `lambda_.Function`. -/
structure LambdaFunction where
  runtime : String
  handler : String
  timeout_seconds : Nat
  memory_size : Nat
  role : Role
  environment : List (String × String)
deriving Repr, DecidableEq

/-- `triggers.InvocationType`. -/
inductive InvocationType where
  | EVENT
  | REQUEST_RESPONSE
  | DRY_RUN
deriving Repr, DecidableEq

/-- A `triggers.Trigger` resource: which function it invokes once at
deployment, with which invocation type. -/
structure Trigger where
  handler_logical_id : String
  timeout_seconds : Nat
  invocation_type : InvocationType
deriving Repr, DecidableEq

/-- A `CfnParameter` declaration: its default and its `allowed_values`
constraint (`none` when unconstrained). -/
structure CfnParameter where
  default_value : Option String
  allowed_values : Option (List String)
deriving Repr, DecidableEq

/-- The synthesized stack: one field per resource `app.py` creates, in
source order. -/
structure SynthesizedStack where
  model_id_param : CfnParameter
  kendra_edition_param : CfnParameter
  google_drive_secret_arn_param : CfnParameter
  kendra_index_role : Role
  kendra_index : CfnIndex
  kendra_ds_role : Role
  kendra_ds : CfnDataSource
  data_source_sync_lambda_role : Role
  data_source_sync_lambda : LambdaFunction
  data_source_sync_lambda_trigger : Trigger
  invoke_bedrock_lambda_role : Role
  invoke_bedrock_lambda : LambdaFunction
deriving Repr, DecidableEq

/-- The synthesis function: a direct transcription of
`BedrockKendraGoogleDriveStack.__init__` in `app.py`. -/
def mkStack (p : StackParams) (r : Resolution) : SynthesizedStack :=
  let model_id := p.model_id
  let kendra_edition := p.kendra_edition
  let google_drive_secret_arn := p.google_drive_secret_arn
  let kendra_index_role : Role :=
    { assumed_by := "kendra.amazonaws.com"
      role_name := some (p.construct_id ++ "-KendraIndexRole")
      managed_policies := ["CloudWatchLogsFullAccess"]
      inline_policies := [] }
  let kendra_index : CfnIndex :=
    { name := p.construct_id ++ "-KendraIndex"
      role_arn := r.index_role_arn
      edition := kendra_edition }
  let kendra_ds_role : Role :=
    { assumed_by := "kendra.amazonaws.com"
      role_name := some (p.construct_id ++ "-GoogleDriveDSRole")
      managed_policies := ["CloudWatchLogsFullAccess"]
      inline_policies :=
        [("KendraDataSourcePolicy",
          { statements :=
              [{ actions := ["kendra:BatchPutDocument", "kendra:BatchDeleteDocument"]
                 resources := [r.index_arn] }] }),
         ("SecretsManagerPolicy",
          { statements :=
              [{ actions := ["secretsmanager:GetSecretValue"]
                 resources := [google_drive_secret_arn] }] })] }
  let kendra_ds : CfnDataSource :=
    { index_id := r.index_id
      name := p.construct_id ++ "-KendraGoogleDriveDS"
      ds_type := "GOOGLEDRIVE"
      secret_arn := google_drive_secret_arn
      role_arn := r.ds_role_arn
      dependencies := ["KendraIndex"] }
  let data_source_sync_lambda_role : Role :=
    { assumed_by := "lambda.amazonaws.com"
      role_name := none
      managed_policies := ["CloudWatchLogsFullAccess"]
      inline_policies :=
        [("KendraDataSourceSyncPolicy",
          { statements :=
              [{ actions := ["kendra:StartDataSourceSyncJob", "kendra:StopDataSourceSyncJob"]
                 resources := [r.index_arn, r.index_arn ++ "/*"] }] })] }
  let data_source_sync_lambda : LambdaFunction :=
    { runtime := "PYTHON_3_12"
      handler := "dataSourceSyncLambda.lambda_handler"
      timeout_seconds := 15 * 60
      memory_size := 1024
      role := data_source_sync_lambda_role
      environment := [("INDEX_ID", r.index_id), ("DS_ID", r.ds_id)] }
  let data_source_sync_lambda_trigger : Trigger :=
    { handler_logical_id := "DataSourceSyncLambda"
      timeout_seconds := 10 * 60
      invocation_type := InvocationType.EVENT }
  let invoke_bedrock_lambda_role : Role :=
    { assumed_by := "lambda.amazonaws.com"
      role_name := none
      managed_policies := ["CloudWatchLogsFullAccess"]
      inline_policies :=
        [("InvokeBedRockPolicy",
          { statements :=
              [{ actions := ["bedrock:InvokeModel"]
                 resources :=
                   ["arn:aws:bedrock:" ++ p.region ++ "::foundation-model/" ++ model_id] }] }),
         ("KendraRetrievalPolicy",
          { statements :=
              [{ actions := ["kendra:Retrieve"]
                 resources := [r.index_arn] }] })] }
  let invoke_bedrock_lambda : LambdaFunction :=
    { runtime := "PYTHON_3_12"
      handler := "invokeBedrockLambda.lambda_handler"
      timeout_seconds := 120
      memory_size := 3008
      role := invoke_bedrock_lambda_role
      environment := [("INDEX_ID", r.index_id), ("MODEL_ID", model_id)] }
  { model_id_param :=
      { default_value := some "anthropic.claude-instant-v1"
        allowed_values := some
          ["anthropic.claude-instant-v1",
           "anthropic.claude-3-sonnet-20240229-v1:0",
           "anthropic.claude-3-haiku-20240307-v1:0",
           "anthropic.claude-v2"] }
    kendra_edition_param :=
      { default_value := some "DEVELOPER_EDITION"
        allowed_values := some ["DEVELOPER_EDITION", "ENTERPRISE_EDITION"] }
    google_drive_secret_arn_param :=
      { default_value := none, allowed_values := none }
    kendra_index_role := kendra_index_role
    kendra_index := kendra_index
    kendra_ds_role := kendra_ds_role
    kendra_ds := kendra_ds
    data_source_sync_lambda_role := data_source_sync_lambda_role
    data_source_sync_lambda := data_source_sync_lambda
    data_source_sync_lambda_trigger := data_source_sync_lambda_trigger
    invoke_bedrock_lambda_role := invoke_bedrock_lambda_role
    invoke_bedrock_lambda := invoke_bedrock_lambda }

/-- All IAM roles the stack creates, paired with the logical id each is
constructed under in `app.py`. -/
def stackRoles (s : SynthesizedStack) : List (String × Role) :=
  [("KendraIndexRole", s.kendra_index_role),
   ("KendraDSRole", s.kendra_ds_role),
   ("DataSourceSyncLambdaRole", s.data_source_sync_lambda_role),
   ("InvokeBedRockLambdaRole", s.invoke_bedrock_lambda_role)]

/-- Every policy statement granted by a role's inline policies. -/
def roleStatements (role : Role) : List PolicyStatement :=
  (role.inline_policies.map (fun np => np.2.statements)).flatten

/-- The service portion of an IAM action string: the part before the
colon. -/
def actionService (a : String) : String :=
  (a.data.takeWhile (fun c => c ≠ ':')).asString

/-- Whether a role's inline policies grant some action of the given
service. -/
def grantsService (role : Role) (service : String) : Bool :=
  (roleStatements role).any fun st =>
    st.actions.any fun a => actionService a == service

/-! ### Sync Orchestrator behaviour

Modelled from the spec: the handler code under `src/dataSourceSync` is not in
the repository snapshot, so `RequestSync` is transcribed from spec sections
3, 4.1 and 5. -/

/-- The `SyncJob.state` enumeration of spec section 3. -/
inductive SyncState where
  | Requested
  | Running
  | Succeeded
  | Failed
  | Stopped
deriving Repr, DecidableEq

/-- A `SyncJob` of spec section 3: immutable external references, the
job id assigned by the index service on start, and the lifecycle state. -/
structure SyncJob where
  indexId : String
  dataSourceId : String
  jobId : String
  state : SyncState
deriving Repr, DecidableEq

/-- A state is active when the job has been started and has not reached a
terminal state (`Requested` or `Running`). -/
def SyncState.isActive : SyncState → Bool
  | SyncState.Requested => true
  | SyncState.Running => true
  | _ => false

/-- Orchestrator-side tracking state: the locally tracked jobs and a count
of calls made so far to the external start-sync operation.  Fresh job ids
are drawn from a counter. -/
structure OrchestratorState where
  jobs : List SyncJob
  startSyncCalls : Nat
  nextJobId : Nat
deriving Repr, DecidableEq

/-- The orchestrator state before any invocation. -/
def OrchestratorState.initial : OrchestratorState :=
  { jobs := [], startSyncCalls := 0, nextJobId := 0 }

/-- The active job tracked for a given (indexId, dataSourceId) pair,
if any. -/
def findActive (st : OrchestratorState) (idx ds : String) : Option SyncJob :=
  st.jobs.find? fun j =>
    j.indexId == idx && j.dataSourceId == ds && j.state.isActive

/-- Modelled from the spec: `RequestSync(indexId, dataSourceId)` of spec
section 4.1.  Step 1: if an active job on the same pair exists, return it
unchanged (idempotent re-trigger) without calling the external service.
Step 2: otherwise call the external start-sync operation — counted in
`startSyncCalls` — and record the new job in `Running` state with the
returned job id.  Per spec section 5, concurrent trigger attempts are
serialized by a mutual-exclusion mechanism keyed by the pair, so a batch of
concurrent calls is modelled as a sequence of atomic `requestSync` steps. -/
def requestSync (st : OrchestratorState) (idx ds : String) :
    SyncJob × OrchestratorState :=
  match findActive st idx ds with
  | some j => (j, st)
  | none =>
      let j : SyncJob :=
        { indexId := idx
          dataSourceId := ds
          jobId := toString st.nextJobId
          state := SyncState.Running }
      (j, { jobs := j :: st.jobs
            startSyncCalls := st.startSyncCalls + 1
            nextJobId := st.nextJobId + 1 })

/-- Run a batch of `n` serialized `RequestSync` calls for the same pair. -/
def requestSyncN (st : OrchestratorState) (idx ds : String) : Nat → OrchestratorState
  | 0 => st
  | n + 1 => requestSyncN (requestSync st idx ds).2 idx ds n

/-- The at-most-one invariant of spec section 3: no two distinct tracked
jobs on the same pair are both active. -/
def atMostOneActive (st : OrchestratorState) : Prop :=
  st.jobs.Pairwise fun a b =>
    a.indexId = b.indexId → a.dataSourceId = b.dataSourceId →
      ¬ (a.state.isActive = true ∧ b.state.isActive = true)

/-! ### Query Service behaviour

Modelled from the spec: the handler code under `src/invokeBedrockLambda` is
not in the repository snapshot, so `Answer` is transcribed from spec
sections 3, 4.2 and 7. -/

/-- A retrieved passage of spec section 3 (`RetrievalResult` element).
Scores are modelled as integers; only their ordering matters here. -/
structure Passage where
  text : String
  sourceUri : String
  score : Int
deriving Repr, DecidableEq

/-- A `GenerationResponse` of spec section 3, with the ungrounded marker of
spec section 4.2's empty-retrieval case. -/
structure GenerationResponse where
  answer : String
  citations : List String
  grounded : Bool
deriving Repr, DecidableEq

/-- The error taxonomy of spec section 7 restricted to the Query Service. -/
inductive AnswerError where
  | InvalidInput
  | RetrievalFailed
  | GenerationFailed
deriving Repr, DecidableEq

/-- Modelled from the spec: stage-2 prompt construction of spec
section 4.2 — instruct the model to answer from context, embed each passage
labeled with its source in retrieval order, append the user query. -/
def buildPrompt (query : String) (passages : List Passage) : String :=
  "Answer only from the supplied context.\n"
    ++ String.join (passages.map fun pa =>
        "Source: " ++ pa.sourceUri ++ "\n" ++ pa.text ++ "\n")
    ++ "Question: " ++ query

/-- Modelled from the spec: citation extraction of spec section 4.2 —
the deduplicated source uris actually referenced in the answer text, or all
retrieved sources when none is confidently attributable (conservative
fallback). -/
def extractCitations (answer : String) (passages : List Passage) : List String :=
  let sources := (passages.map Passage.sourceUri).dedup
  let referenced := sources.filter fun u => (answer.splitOn u).length > 1
  if referenced.isEmpty then sources else referenced

/-- Modelled from the spec: `Answer(query)` of spec sections 4.2 and 7.
`retrieve` and `generate` stand for the two external calls; `none` models
an external failure.  Empty query is `InvalidInput`; an unreachable index
is `RetrievalFailed`; zero retrieved passages is NOT an error — generation
is still attempted with no context and the response is marked ungrounded
with an empty citations list. -/
def Answer (retrieve : String → Option (List Passage))
    (generate : String → Option String) (query : String) :
    Except AnswerError GenerationResponse :=
  if query = "" then Except.error AnswerError.InvalidInput
  else
    match retrieve query with
    | none => Except.error AnswerError.RetrievalFailed
    | some passages =>
        match generate (buildPrompt query passages) with
        | none => Except.error AnswerError.GenerationFailed
        | some text =>
            Except.ok
              { answer := text
                citations :=
                  if passages.isEmpty then [] else extractCitations text passages
                grounded := !passages.isEmpty }

/-! ### Sample concrete inputs used by witnesses and counterexamples -/

/-- Concrete stack parameters for witness instantiation. -/
def sampleParams : StackParams :=
  { model_id := "anthropic.claude-instant-v1"
    kendra_edition := "DEVELOPER_EDITION"
    google_drive_secret_arn := "arn:aws:secretsmanager:us-east-1:111122223333:secret:gdrive"
    construct_id := "BedrockKendraGoogleDriveStack"
    region := "us-east-1" }

/-- Concrete token resolution for witness instantiation. -/
def sampleRes : Resolution :=
  { index_id := "idx-0001"
    index_arn := "arn:aws:kendra:us-east-1:111122223333:index/idx-0001"
    ds_id := "ds-0001"
    ds_arn := "arn:aws:kendra:us-east-1:111122223333:index/idx-0001/data-source/ds-0001"
    index_role_arn := "arn:aws:iam::111122223333:role/idx-role"
    ds_role_arn := "arn:aws:iam::111122223333:role/ds-role" }

/-! ### Claims -/

/-- C1, as stated, is false: the Sync Orchestrator Lambda's environment has
no key named `DATA_SOURCE_ID` — app.py supplies the data-source id under
the key `DS_ID`. -/
theorem C1_counterexample :
    ((mkStack sampleParams sampleRes).data_source_sync_lambda.environment.lookup
        "DATA_SOURCE_ID") = none
    ∧ ((mkStack sampleParams sampleRes).data_source_sync_lambda.environment.lookup
        "DS_ID") = some "ds-0001" := by
  constructor <;> rfl

/-- C1 (amended): in every synthesized stack, the Sync Orchestrator
function's environment is exactly `INDEX_ID` bound to the created index id
and `DS_ID` (not `DATA_SOURCE_ID`) bound to the created data-source id, and
the Query Service function's environment is exactly `INDEX_ID` bound to the
index id and `MODEL_ID` bound to the configured model id; `MODEL_ID` is
absent from the orchestrator's environment and the data-source identifier is
absent from the query service's environment. -/
theorem C1_env_injection (p : StackParams) (r : Resolution) :
    (mkStack p r).data_source_sync_lambda.environment
        = [("INDEX_ID", r.index_id), ("DS_ID", r.ds_id)]
    ∧ (mkStack p r).invoke_bedrock_lambda.environment
        = [("INDEX_ID", r.index_id), ("MODEL_ID", p.model_id)]
    ∧ (mkStack p r).data_source_sync_lambda.environment.lookup "MODEL_ID" = none
    ∧ (mkStack p r).invoke_bedrock_lambda.environment.lookup "DS_ID" = none
    ∧ (mkStack p r).invoke_bedrock_lambda.environment.lookup "DATA_SOURCE_ID" = none := by
  exact ⟨rfl, rfl, rfl, rfl, rfl⟩

/-- C2: in every synthesized stack the single deployment trigger targets the
Sync Orchestrator function (logical id `DataSourceSyncLambda`, the handler
`dataSourceSyncLambda.lambda_handler`) and its invocation type is
`EVENT` — asynchronous fire-and-forget, so deployment does not block on the
sync job's completion. -/
theorem C2_event_trigger (p : StackParams) (r : Resolution) :
    (mkStack p r).data_source_sync_lambda_trigger.invocation_type = InvocationType.EVENT
    ∧ (mkStack p r).data_source_sync_lambda_trigger.handler_logical_id
        = "DataSourceSyncLambda"
    ∧ (mkStack p r).data_source_sync_lambda.handler
        = "dataSourceSyncLambda.lambda_handler" := by
  exact ⟨rfl, rfl, rfl⟩

/-- C3: among all four IAM roles the stack creates, the Kendra data-source
role is the only one whose policies touch the Secrets Manager service; its
sole secret-store statement grants `secretsmanager:GetSecretValue` on
exactly the supplied secret ARN, and the two Lambda roles grant no
secret-store access at all. -/
theorem C3_secret_only_ds_role (p : StackParams) (r : Resolution) :
    ((stackRoles (mkStack p r)).filter
        (fun nr => grantsService nr.2 "secretsmanager")).map Prod.fst
      = ["KendraDSRole"]
    ∧ (roleStatements (mkStack p r).kendra_ds_role).filter
        (fun st => st.actions.contains "secretsmanager:GetSecretValue")
      = [{ actions := ["secretsmanager:GetSecretValue"]
           resources := [p.google_drive_secret_arn] }]
    ∧ grantsService (mkStack p r).data_source_sync_lambda_role "secretsmanager" = false
    ∧ grantsService (mkStack p r).invoke_bedrock_lambda_role "secretsmanager" = false := by
  exact ⟨rfl, rfl, rfl, rfl⟩

/-- C4: the query Lambda role's statements carrying `kendra:Retrieve` are
exactly one statement whose resource list is exactly the created index's
ARN, and the same index's id is the `INDEX_ID` value in the query Lambda's
environment — retrieval against any other index is not permitted. -/
theorem C4_retrieve_scoped_to_index (p : StackParams) (r : Resolution) :
    (roleStatements (mkStack p r).invoke_bedrock_lambda_role).filter
        (fun st => st.actions.contains "kendra:Retrieve")
      = [{ actions := ["kendra:Retrieve"], resources := [r.index_arn] }]
    ∧ (mkStack p r).invoke_bedrock_lambda.environment.lookup "INDEX_ID"
        = some r.index_id := by
  exact ⟨rfl, rfl⟩

/-- C5: both functions carry finite execution timeouts — 120 seconds for
the Query Service (retrieval then generation) and 15 minutes (900 seconds)
for the Sync Orchestrator; neither runs unbounded. -/
theorem C5_bounded_timeouts (p : StackParams) (r : Resolution) :
    (mkStack p r).invoke_bedrock_lambda.timeout_seconds = 120
    ∧ (mkStack p r).data_source_sync_lambda.timeout_seconds = 15 * 60 := by
  exact ⟨rfl, rfl⟩

/-- C8: the `ModelId` parameter constrains deployments to the four listed
Anthropic model identifiers with `anthropic.claude-instant-v1` as default,
and the query role's `bedrock:InvokeModel` statement is scoped to exactly
the one foundation-model ARN built from the selected identifier; hence for
any deployment whose model id satisfies the parameter constraint, that
resource ARN is one of the four allowed foundation-model ARNs. -/
theorem C8_model_closed_set (p : StackParams) (r : Resolution)
    (h : p.model_id ∈
      ["anthropic.claude-instant-v1",
       "anthropic.claude-3-sonnet-20240229-v1:0",
       "anthropic.claude-3-haiku-20240307-v1:0",
       "anthropic.claude-v2"]) :
    (mkStack p r).model_id_param.allowed_values = some
        ["anthropic.claude-instant-v1",
         "anthropic.claude-3-sonnet-20240229-v1:0",
         "anthropic.claude-3-haiku-20240307-v1:0",
         "anthropic.claude-v2"]
    ∧ (mkStack p r).model_id_param.default_value = some "anthropic.claude-instant-v1"
    ∧ (roleStatements (mkStack p r).invoke_bedrock_lambda_role).filter
        (fun st => st.actions.contains "bedrock:InvokeModel")
      = [{ actions := ["bedrock:InvokeModel"]
           resources :=
             ["arn:aws:bedrock:" ++ p.region ++ "::foundation-model/" ++ p.model_id] }]
    ∧ ("arn:aws:bedrock:" ++ p.region ++ "::foundation-model/" ++ p.model_id) ∈
        (["anthropic.claude-instant-v1",
          "anthropic.claude-3-sonnet-20240229-v1:0",
          "anthropic.claude-3-haiku-20240307-v1:0",
          "anthropic.claude-v2"].map
            (fun m => "arn:aws:bedrock:" ++ p.region ++ "::foundation-model/" ++ m)) := by
  refine ⟨rfl, rfl, rfl, List.mem_map.mpr ⟨p.model_id, h, rfl⟩⟩

/-- C8 witness: the theorem instantiated at the sample deployment, whose
model id is in the allowed set. -/
theorem C8_witness :
    (mkStack sampleParams sampleRes).model_id_param.default_value
      = some "anthropic.claude-instant-v1"
    ∧ ("arn:aws:bedrock:" ++ sampleParams.region ++ "::foundation-model/"
          ++ sampleParams.model_id) ∈
        (["anthropic.claude-instant-v1",
          "anthropic.claude-3-sonnet-20240229-v1:0",
          "anthropic.claude-3-haiku-20240307-v1:0",
          "anthropic.claude-v2"].map
            (fun m => "arn:aws:bedrock:" ++ sampleParams.region
              ++ "::foundation-model/" ++ m)) :=
  ⟨(C8_model_closed_set sampleParams sampleRes (by decide)).2.1,
   (C8_model_closed_set sampleParams sampleRes (by decide)).2.2.2⟩

/-- C9: in every synthesized stack the Google Drive data source declares an
explicit dependency on the `KendraIndex` construct and its `index_id`
references that index's id, so the data source cannot be created before or
without the index. -/
theorem C9_ds_depends_on_index (p : StackParams) (r : Resolution) :
    (mkStack p r).kendra_ds.dependencies = ["KendraIndex"]
    ∧ (mkStack p r).kendra_ds.index_id = r.index_id := by
  exact ⟨rfl, rfl⟩

/-- C10: the per-role inline grants are disjoint and exact: the Sync
Orchestrator role's statements carry exactly the two sync-job-control
actions, and the Query Service role's statements carry exactly
`bedrock:InvokeModel` and `kendra:Retrieve` — no retrieval or model
invocation on the orchestrator side and no sync-job control on the query
side. -/
theorem C10_disjoint_role_actions (p : StackParams) (r : Resolution) :
    (roleStatements (mkStack p r).data_source_sync_lambda_role).map
        PolicyStatement.actions
      = [["kendra:StartDataSourceSyncJob", "kendra:StopDataSourceSyncJob"]]
    ∧ (roleStatements (mkStack p r).invoke_bedrock_lambda_role).map
        PolicyStatement.actions
      = [["bedrock:InvokeModel"], ["kendra:Retrieve"]] := by
  exact ⟨rfl, rfl⟩

/-! ### Lemmas about the Sync Orchestrator model -/

/-- A `RequestSync` that finds an active job for the pair returns that job
and leaves the state unchanged: no external start-sync call is made. -/
theorem requestSync_of_findActive (st : OrchestratorState) (idx ds : String)
    (j : SyncJob) (hj : findActive st idx ds = some j) :
    requestSync st idx ds = (j, st) := by
  simp [requestSync, hj]

/-- Any number of further serialized `RequestSync` calls on a pair with an
active job leave the state unchanged. -/
theorem requestSyncN_of_findActive (idx ds : String) (st : OrchestratorState)
    (j : SyncJob) (hj : findActive st idx ds = some j) (m : Nat) :
    requestSyncN st idx ds m = st := by
  induction m with
  | zero => rfl
  | succ k ih =>
      simp [requestSyncN, requestSync_of_findActive st idx ds j hj, ih]

/-- After the first `RequestSync` from the initial state, the started job is
the tracked active job for its pair. -/
theorem findActive_after_start (idx ds : String) :
    findActive (requestSync OrchestratorState.initial idx ds).2 idx ds
      = some { indexId := idx, dataSourceId := ds, jobId := "0",
               state := SyncState.Running } := by
  simp [findActive, requestSync, OrchestratorState.initial, SyncState.isActive]
  decide

/-- `RequestSync` preserves the at-most-one-active-job invariant: when no
active job exists for the pair, the freshly started job cannot clash with
any tracked active job on the same pair. -/
theorem atMostOneActive_requestSync (st : OrchestratorState) (idx ds : String)
    (h : atMostOneActive st) :
    atMostOneActive (requestSync st idx ds).2 := by
  cases hfa : findActive st idx ds with
  | some j => simpa [requestSync, hfa] using h
  | none =>
      simp only [requestSync, hfa, atMostOneActive] at h ⊢
      refine List.Pairwise.cons ?_ h
      intro b hb h1 h2 hact
      have hnone : ¬ (b.indexId == idx && (b.dataSourceId == ds
          && b.state.isActive)) = true := by
        have := List.find?_eq_none.mp hfa b hb
        simpa [Bool.and_assoc] using this
      apply hnone
      simp only at h1 h2
      simp [← h1, ← h2, hact.2]

/-- The initial orchestrator state satisfies the invariant. -/
theorem atMostOneActive_initial : atMostOneActive OrchestratorState.initial :=
  List.Pairwise.nil

/-- C6 (spec-modelled): any positive number of serialized `RequestSync`
calls for a pair, starting with no active job, makes exactly one external
start-sync call and leaves at most one active job per pair; a `RequestSync`
issued while a job for the pair is active returns the existing job with the
state unchanged (never a silent duplicate), and a `RequestSync` step
preserves the at-most-one-active invariant from any invariant-satisfying
state. -/
theorem C6_at_most_one_active_sync (idx ds : String) (n : Nat) (hn : 0 < n)
    (st st2 : OrchestratorState) (j : SyncJob)
    (hj : findActive st idx ds = some j) (h2 : atMostOneActive st2) :
    (requestSyncN OrchestratorState.initial idx ds n).startSyncCalls = 1
    ∧ atMostOneActive (requestSyncN OrchestratorState.initial idx ds n)
    ∧ requestSync st idx ds = (j, st)
    ∧ atMostOneActive (requestSync st2 idx ds).2 := by
  obtain ⟨k, rfl⟩ : ∃ k, n = k + 1 :=
    ⟨n - 1, (Nat.succ_pred_eq_of_pos hn).symm⟩
  have hstep : requestSyncN OrchestratorState.initial idx ds (k + 1)
      = (requestSync OrchestratorState.initial idx ds).2 := by
    simpa [requestSyncN] using
      requestSyncN_of_findActive idx ds
        (requestSync OrchestratorState.initial idx ds).2 _
        (findActive_after_start idx ds) k
  refine ⟨?_, ?_, requestSync_of_findActive st idx ds j hj,
    atMostOneActive_requestSync st2 idx ds h2⟩
  · rw [hstep]; rfl
  · rw [hstep]
    exact atMostOneActive_requestSync OrchestratorState.initial idx ds
      atMostOneActive_initial

/-- A concrete orchestrator job used by the C6 witness. -/
def sampleJob : SyncJob :=
  { indexId := "idx-0001", dataSourceId := "ds-0001", jobId := "0",
    state := SyncState.Running }

/-- A concrete orchestrator state with one active job, used by the C6
witness. -/
def sampleOrchState : OrchestratorState :=
  { jobs := [sampleJob], startSyncCalls := 1, nextJobId := 1 }

/-- C6 witness: three serialized sync requests from the initial state make
exactly one start-sync call, and a request against a state with a running
job for the pair returns that job unchanged. -/
theorem C6_witness :
    (requestSyncN OrchestratorState.initial "idx-0001" "ds-0001" 3).startSyncCalls = 1
    ∧ atMostOneActive (requestSyncN OrchestratorState.initial "idx-0001" "ds-0001" 3)
    ∧ requestSync sampleOrchState "idx-0001" "ds-0001" = (sampleJob, sampleOrchState)
    ∧ atMostOneActive (requestSync sampleOrchState "idx-0001" "ds-0001").2 :=
  C6_at_most_one_active_sync "idx-0001" "ds-0001" 3 (by decide)
    sampleOrchState sampleOrchState sampleJob (by decide)
    (by simp [atMostOneActive, sampleOrchState])

/-- C7 (spec-modelled): when retrieval succeeds with zero passages and the
query is non-empty, `Answer` is not an error: generation is still attempted
on the context-free prompt and the returned `GenerationResponse` carries the
generated text, an empty citations list, and the ungrounded marker. -/
theorem C7_empty_retrieval_not_error (retrieve : String → Option (List Passage))
    (generate : String → Option String) (query text : String)
    (hq : query ≠ "") (hr : retrieve query = some [])
    (hg : generate (buildPrompt query []) = some text) :
    Answer retrieve generate query
      = Except.ok { answer := text, citations := [], grounded := false } := by
  simp [Answer, hq, hr, hg]

/-- C7 witness: a retrieval stub returning zero passages and a generation
stub answering from general knowledge yield a well-formed ungrounded
response with no citations. -/
theorem C7_witness :
    Answer (fun _ => some []) (fun _ => some "answered from general knowledge")
        "What is our vacation policy?"
      = Except.ok { answer := "answered from general knowledge",
                    citations := [], grounded := false } :=
  C7_empty_retrieval_not_error (fun _ => some [])
    (fun _ => some "answered from general knowledge")
    "What is our vacation policy?" "answered from general knowledge"
    (by decide) rfl rfl

end KendraBedrock
